import Mathlib

/-!
Verification of the HandBeats rhythm game core (a Python/pygame project) against its
natural-language specification.  The Python sources are shallowly embedded below:
integer/float arithmetic is modelled over ℚ (the concrete constants of the game are
small dyadic/decimal values on which Python's float arithmetic is exact for every
operation the theorems touch, pointwise checked: 100*1.2 = 120.0, 50*1.2 = 60.0,
25*1.2 = 30.0, all other multiplier products are exact in binary), Python dicts become
association lists, and the global random stream becomes an explicit function ℕ → ℚ
whose values lie in [0,1).

Sources embedded:
  config/constants.py      (COMBO_MULTIPLIER, zone geometry, scoring constants)
  config/settings.py       (DifficultySettings)
  config/beatmap.py        (BeatmapGenerator, loop_beatmap)
  src/score_manager.py     (ScoreManager)
  src/collision.py         (HitResult, CollisionDetector)
  src/falling_object.py    (FallingObject)
  src/lane.py              (Lane, LaneManager.check_collisions_with_velocity)
  src/hand_tracker.py      (velocity computation, velocity_threshold)
-/

/-- Python int() applied to a rational: truncation toward zero. -/
def pyInt (q : ℚ) : ℤ := if 0 ≤ q then ⌊q⌋ else ⌈q⌉

/-- Association-list lookup keyed by strings; models Python dict access
(d[k] guarded by a `k in d` test, keys unique in all uses). -/
def dictGet {α : Type} : List (String × α) → String → Option α
  | [], _ => none
  | (k, v) :: rest, key => if k = key then some v else dictGet rest key

/-! ## config/constants.py -/

/-- COMBO_MULTIPLIER from config/constants.py lines 131-136:
{10: 1.2, 20: 1.5, 30: 2.0, 50: 2.5}, iterated in sorted key order. -/
def COMBO_MULTIPLIER : List (ℕ × ℚ) := [(10, 6/5), (20, 3/2), (30, 2), (50, 5/2)]

/-- OBJECT_SPAWN_Y from config/constants.py. -/
def OBJECT_SPAWN_Y : ℚ := -100

/-- Modelled from the spec: src/falling_object.py imports OBJECT_TARGET_Y from
config/constants.py, but constants.py defines only OBJECT_TARGET_Y_SIDE = 380 and
OBJECT_TARGET_Y_CENTER = 260.  The spec's hit-zone geometry (HIT_ZONE_TOP/BOTTOM)
uses the side value OBJECT_TARGET_Y_SIDE = ZONE_Y_SIDE - 20 = 380 as the reference
target, so the shared target constant is taken to be 380.  No theorem below depends
on this numeric value. -/
def OBJECT_TARGET_Y : ℚ := 380

/-- TRACK_POSITIONS from config/constants.py: zone x + (ZONE_WIDTH - OBJECT_SIZE) / 2,
so kick 1010+40, hihat 530+40, snare 50+40 (dict access; unknown key unused). -/
def TRACK_POSITIONS (instrument : String) : ℤ :=
  if instrument = "kick" then 1050
  else if instrument = "hihat" then 570
  else if instrument = "snare" then 90
  else 0

/-! ## config/settings.py — DifficultySettings -/

/-- One difficulty tier (the fields used by the gameplay core). -/
structure Difficulty where
  name : String
  falling_speed : ℚ
  perfect_window : ℚ
  good_window : ℚ
  ok_window : ℚ
deriving DecidableEq

/-- DifficultySettings.EASY. -/
def EASY : Difficulty := ⟨"EASY", 7/2, 100, 180, 280⟩

/-- DifficultySettings.MEDIUM. -/
def MEDIUM : Difficulty := ⟨"MEDIUM", 11/2, 80, 150, 230⟩

/-- DifficultySettings.HARD. -/
def HARD : Difficulty := ⟨"HARD", 15/2, 60, 120, 180⟩

/-- The three difficulty tiers. -/
def DIFFICULTIES : List Difficulty := [EASY, MEDIUM, HARD]

/-! ## src/score_manager.py -/

/-- HitResult from src/collision.py. -/
structure HitResult where
  success : Bool
  rating : String
  points : ℕ
  instrument : String
deriving DecidableEq

/-- ScoreManager state (src/score_manager.py, __init__). -/
structure ScoreManager where
  score : ℤ
  combo : ℕ
  max_combo : ℕ
  total_hits : ℕ
  perfect_count : ℕ
  good_count : ℕ
  ok_count : ℕ
  miss_count : ℕ
  current_multiplier : ℚ
deriving DecidableEq

/-- Freshly initialized ScoreManager. -/
def ScoreManager.init : ScoreManager :=
  { score := 0, combo := 0, max_combo := 0, total_hits := 0, perfect_count := 0,
    good_count := 0, ok_count := 0, miss_count := 0, current_multiplier := 1 }

/-- ScoreManager._get_combo_multiplier: walk the sorted threshold table, keeping the
multiplier of the last (hence highest) satisfied threshold. -/
def get_combo_multiplier (combo : ℕ) : ℚ :=
  COMBO_MULTIPLIER.foldl (fun acc p => if p.1 ≤ combo then p.2 else acc) 1

/-- ScoreManager.add_hit (src/score_manager.py lines 31-60).  Python computes
points = int(hit_result.points * self.current_multiplier): truncation, not rounding. -/
def ScoreManager.add_hit (s : ScoreManager) (hit_result : HitResult) : ScoreManager :=
  if hit_result.success = false then s
  else
    let combo := s.combo + 1
    let current_multiplier := get_combo_multiplier combo
    { s with
      combo := combo
      max_combo := max s.max_combo combo
      total_hits := s.total_hits + 1
      perfect_count :=
        if hit_result.rating = "PERFECT" then s.perfect_count + 1 else s.perfect_count
      good_count :=
        if hit_result.rating = "PERFECT" then s.good_count
        else if hit_result.rating = "GOOD" then s.good_count + 1 else s.good_count
      ok_count :=
        if hit_result.rating = "PERFECT" ∨ hit_result.rating = "GOOD" then s.ok_count
        else if hit_result.rating = "OK" then s.ok_count + 1 else s.ok_count
      current_multiplier := current_multiplier
      score := s.score + pyInt ((hit_result.points : ℚ) * current_multiplier) }

/-- ScoreManager.add_miss (src/score_manager.py lines 62-66). -/
def ScoreManager.add_miss (s : ScoreManager) : ScoreManager :=
  { s with combo := 0, miss_count := s.miss_count + 1, current_multiplier := 1 }

/-- ScoreManager.get_accuracy (src/score_manager.py lines 84-104). -/
def ScoreManager.get_accuracy (s : ScoreManager) : ℚ :=
  let total_notes := s.total_hits + s.miss_count
  if total_notes = 0 then 0
  else
    let weighted_hits : ℚ :=
      (s.perfect_count : ℚ) * 1 + (s.good_count : ℚ) * (7/10) + (s.ok_count : ℚ) * (2/5)
    min 100 (weighted_hits / (total_notes : ℚ) * 100)

/-- ScoreManager.get_rank (src/score_manager.py lines 106-124). -/
def ScoreManager.get_rank (s : ScoreManager) : String :=
  let accuracy := s.get_accuracy
  if 95 ≤ accuracy then "S"
  else if 85 ≤ accuracy then "A"
  else if 70 ≤ accuracy then "B"
  else if 50 ≤ accuracy then "C"
  else "D"

/-- Ten judged hits (8 PERFECT, 1 GOOD, 1 OK) used for the worked accuracy example. -/
def sample_hits : List HitResult :=
  List.replicate 8 ⟨true, "PERFECT", 100, "kick"⟩ ++
    [⟨true, "GOOD", 50, "snare"⟩, ⟨true, "OK", 25, "hihat"⟩]

/-- ScoreManager state after processing the ten sample hits. -/
def sample_state : ScoreManager := sample_hits.foldl ScoreManager.add_hit ScoreManager.init

/-! ## src/falling_object.py -/

/-- FallingObject state (src/falling_object.py).  Rendering-only fields (the pygame
image surface) are omitted; alpha and scale are kept because update mutates them
and alpha drives the death of a hit note. -/
structure FallingObject where
  instrument : String
  spawn_time : ℚ
  falling_speed : ℚ
  x : ℤ
  y : ℚ
  size : ℕ
  is_spawned : Bool
  is_hit : Bool
  is_missed : Bool
  is_dead : Bool
  alpha : ℚ
  scale : ℚ
deriving DecidableEq

/-- FallingObject.__init__. -/
def FallingObject.mk_new (instrument : String) (spawn_time falling_speed : ℚ) :
    FallingObject :=
  { instrument := instrument, spawn_time := spawn_time, falling_speed := falling_speed,
    x := TRACK_POSITIONS instrument, y := OBJECT_SPAWN_Y, size := 80,
    is_spawned := false, is_hit := false, is_missed := false, is_dead := false,
    alpha := 255, scale := 1 }

/-- FallingObject.mark_hit. -/
def FallingObject.mark_hit (o : FallingObject) : FallingObject := { o with is_hit := true }

/-- FallingObject.mark_missed. -/
def FallingObject.mark_missed (o : FallingObject) : FallingObject :=
  { o with is_missed := true, is_dead := true }

/-- FallingObject.get_distance_from_target. -/
def FallingObject.get_distance_from_target (o : FallingObject) : ℚ := o.y - OBJECT_TARGET_Y

/-- FallingObject.update (src/falling_object.py lines 68-95); dt is accepted but, as in
the source, unused by the state logic. -/
def FallingObject.update (o : FallingObject) (dt current_time : ℚ) : FallingObject :=
  let o1 := if o.is_spawned = false ∧ o.spawn_time ≤ current_time
            then { o with is_spawned := true } else o
  if o1.is_spawned = true ∧ o1.is_dead = false then
    let o2 := { o1 with y := o1.y + o1.falling_speed }
    let o3 := if OBJECT_TARGET_Y + 100 < o2.y ∧ o2.is_hit = false
              then { o2 with is_missed := true, is_dead := true } else o2
    if o3.is_hit = true then
      let o4 := { o3 with alpha := max 0 (o3.alpha - 15), scale := o3.scale + 1/20 }
      if o4.alpha ≤ 0 then { o4 with is_dead := true } else o4
    else o3
  else o1

/-! ## src/collision.py -/

/-- The fixed score_values table of CollisionDetector. -/
def score_values (rating : String) : ℕ :=
  if rating = "PERFECT" then 100
  else if rating = "GOOD" then 50
  else if rating = "OK" then 25
  else 0

/-- CollisionDetector state: the three distance windows. -/
structure CollisionDetector where
  perfect_window : ℚ
  good_window : ℚ
  ok_window : ℚ
deriving DecidableEq

/-- The CollisionDetector built from a difficulty tier (GameManager.start_game). -/
def Difficulty.detector (d : Difficulty) : CollisionDetector :=
  ⟨d.perfect_window, d.good_window, d.ok_window⟩

/-- CollisionDetector._calculate_rating (ascending distance thresholds). -/
def CollisionDetector.calculate_rating (det : CollisionDetector) (distance : ℚ) : String :=
  if distance ≤ det.perfect_window then "PERFECT"
  else if distance ≤ det.good_window then "GOOD"
  else if distance ≤ det.ok_window then "OK"
  else "MISS"

/-- CollisionDetector.check_hit (src/collision.py lines 58-95).  Returns the optional
HitResult together with the (possibly hit-marked) note. -/
def CollisionDetector.check_hit (det : CollisionDetector) (o : FallingObject)
    (hand_in_lane : Bool) : Option HitResult × FallingObject :=
  if hand_in_lane = false then (none, o)
  else if o.is_hit = true ∨ o.is_missed = true then (none, o)
  else
    let distance := |o.get_distance_from_target|
    let rating := det.calculate_rating distance
    if rating = "MISS" then (none, o)
    else
      (some { success := true, rating := rating, points := score_values rating,
              instrument := o.instrument },
       o.mark_hit)

/-- A freshly created kick note moved exactly onto the shared target line
(used to instantiate the judging theorems at distance 0). -/
def sample_note : FallingObject :=
  { FallingObject.mk_new "kick" 0 (7/2) with y := OBJECT_TARGET_Y }

/-- States of one note reachable through the lifecycle operations: creation,
FallingObject.update ticks, and CollisionDetector.check_hit judgments. -/
inductive NoteReachable : FallingObject → Prop where
  | init (instrument : String) (spawn_time falling_speed : ℚ) :
      NoteReachable (FallingObject.mk_new instrument spawn_time falling_speed)
  | step_update (o : FallingObject) (dt current_time : ℚ) :
      NoteReachable o → NoteReachable (o.update dt current_time)
  | step_judge (o : FallingObject) (det : CollisionDetector) (hand_in_lane : Bool) :
      NoteReachable o → NoteReachable (det.check_hit o hand_in_lane).2

/-! ## src/lane.py -/

/-- An axis-aligned pixel rectangle (pygame.Rect). -/
structure Rect where
  x : ℤ
  y : ℤ
  w : ℤ
  h : ℤ
deriving DecidableEq

/-- pygame.Rect.colliderect: strict axis-aligned overlap (touching edges do not
collide, degenerate rects never collide). -/
def colliderect (a b : Rect) : Bool :=
  decide (a.x < b.x + b.w) && decide (a.y < b.y + b.h) &&
    decide (b.x < a.x + a.w) && decide (b.y < a.y + a.h)

/-- Rectangle z lies fully inside rectangle r. -/
def rectInside (z r : Rect) : Bool :=
  decide (r.x ≤ z.x) && decide (r.y ≤ z.y) &&
    decide (z.x + z.w ≤ r.x + r.w) && decide (z.y + z.h ≤ r.y + r.h)

/-- Lane state (src/lane.py).  Rendering-only fields (image, glow intensity,
hit-flash timer) are omitted; is_active is the state the claims are about. -/
structure Lane where
  x : ℤ
  y : ℤ
  width : ℤ
  height : ℤ
  instrument : String
  hand_preference : String
  is_active : Bool
deriving DecidableEq

/-- Lane.get_rect. -/
def Lane.get_rect (l : Lane) : Rect := ⟨l.x, l.y, l.width, l.height⟩

/-- Lane.check_hand_collision. -/
def Lane.check_hand_collision (l : Lane) (hand_zone : Rect) : Bool :=
  colliderect l.get_rect hand_zone

/-- Lane.activate. -/
def Lane.activate (l : Lane) (active : Bool) : Lane := { l with is_active := active }

/-- The kick lane built from KICK_ZONE in config/constants.py. -/
def KICK_LANE : Lane := ⟨1010, 400, 160, 110, "kick", "Left", false⟩

/-- The hi-hat lane built from HIHAT_ZONE in config/constants.py. -/
def HIHAT_LANE : Lane := ⟨530, 280, 160, 110, "hihat", "chin", false⟩

/-- The snare lane built from SNARE_ZONE in config/constants.py. -/
def SNARE_LANE : Lane := ⟨50, 400, 160, 110, "snare", "Right", false⟩

/-- LaneManager.lanes as created from ZONES. -/
def STANDARD_LANES : List Lane := [KICK_LANE, HIHAT_LANE, SNARE_LANE]

/-- HandTracker.velocity_threshold (src/hand_tracker.py line 61). -/
def velocity_threshold : ℚ := 15

/-- The fingertip loop inside check_collisions_with_velocity: scan the fingertip
zones in order; a zone that overlaps the lane activates it only when its label has
a recorded velocity at or above the threshold (break on the first success; an
overlapping but too-slow zone lets the scan continue). -/
def findFingertipHit (l : Lane) : List (String × Rect) → List (String × ℚ) → ℚ →
    Option String
  | [], _, _ => none
  | (hand_label, zone) :: rest, fingertip_velocities, thr =>
    if l.check_hand_collision zone = true then
      match dictGet fingertip_velocities hand_label with
      | some v => if thr ≤ v then some hand_label
                  else findFingertipHit l rest fingertip_velocities thr
      | none => findFingertipHit l rest fingertip_velocities thr
    else findFingertipHit l rest fingertip_velocities thr

/-- Per-lane body of LaneManager.check_collisions_with_velocity: hi-hat is driven by
the chin zone, gated by chin velocity; any other lane by the fingertip scan.
Returns the label recorded in the active-lanes map, if the lane activates. -/
def laneActivation (l : Lane) (fingertip_positions : List (String × Rect))
    (chin_position : Option Rect) (fingertip_velocities : List (String × ℚ))
    (chin_velocity thr : ℚ) : Option String :=
  if l.instrument = "hihat" then
    match chin_position with
    | some chin_zone =>
      if l.check_hand_collision chin_zone = true ∧ thr ≤ chin_velocity
      then some "Chin" else none
    | none => none
  else findFingertipHit l fingertip_positions fingertip_velocities thr

/-- LaneManager.check_collisions_with_velocity (src/lane.py lines 260-302): processes
each lane in order, recording (instrument, label) entries of activated lanes and
setting every lane's is_active flag. -/
def check_collisions_with_velocity (lanes : List Lane)
    (fingertip_positions : List (String × Rect)) (chin_position : Option Rect)
    (fingertip_velocities : List (String × ℚ)) (chin_velocity thr : ℚ) :
    List (String × String) × List Lane :=
  match lanes with
  | [] => ([], [])
  | l :: rest =>
    let entry := laneActivation l fingertip_positions chin_position
      fingertip_velocities chin_velocity thr
    let tail := check_collisions_with_velocity rest fingertip_positions chin_position
      fingertip_velocities chin_velocity thr
    (match entry with
     | some hand_label => (l.instrument, hand_label) :: tail.1
     | none => tail.1,
     l.activate entry.isSome :: tail.2)

/-- Evidence that a lane's activation condition held this frame: a tracked zone
assigned to the lane's control scheme (chin for hi-hat, any fingertip otherwise)
overlaps the lane rectangle and that zone's velocity is at or above the threshold. -/
def activationEvidence (l : Lane) (fingertip_positions : List (String × Rect))
    (chin_position : Option Rect) (fingertip_velocities : List (String × ℚ))
    (chin_velocity thr : ℚ) : Prop :=
  (l.instrument = "hihat" ∧ ∃ chin_zone, chin_position = some chin_zone ∧
     l.check_hand_collision chin_zone = true ∧ thr ≤ chin_velocity) ∨
  (l.instrument ≠ "hihat" ∧ ∃ hand_label zone v,
     (hand_label, zone) ∈ fingertip_positions ∧
     l.check_hand_collision zone = true ∧
     dictGet fingertip_velocities hand_label = some v ∧ thr ≤ v)

/-! ## config/beatmap.py -/

/-- loop_beatmap (config/beatmap.py lines 231-250). -/
def loop_beatmap (beatmap : List (ℚ × String)) (num_loops : ℕ) (loop_duration : ℚ) :
    List (ℚ × String) :=
  (List.range num_loops).flatMap fun loop_index =>
    beatmap.map fun note => (note.1 + (loop_index : ℚ) * loop_duration, note.2)

/-- Seconds per beat: 60 / bpm. -/
def beat_interval (bpm : ℚ) : ℚ := 60 / bpm

/-- total_beats = int(duration / beat_interval). -/
def total_beats (duration bpm : ℚ) : ℤ := pyInt (duration / beat_interval bpm)

/-- Model of Python random.choice over the game's instrument lists: one sample
r ∈ [0,1) of the random stream is mapped to the index ⌊r * n⌋.  Only the facts
that it consumes one sample and returns some list element matter; no theorem
below depends on the mapping (every proved statement has variation = 0, under
which no choice is ever drawn). -/
def pyChoice (xs : List String) (r : ℚ) : String :=
  xs.getD (pyInt (r * (xs.length : ℚ))).toNat "kick"

/-- The fixed simple pattern kick-snare-hihat-snare. -/
def SIMPLE_PATTERN : List String := ["kick", "snare", "hihat", "snare"]

/-- The fixed 8-step smart pattern. -/
def SMART_PATTERN : List String :=
  ["kick", "hihat", "snare", "hihat", "kick", "hihat", "snare", "hihat"]

/-- The fixed 16-step complex pattern. -/
def COMPLEX_PATTERN : List String :=
  ["kick", "hihat", "snare", "hihat", "kick", "kick", "snare", "hihat",
   "kick", "hihat", "snare", "hihat", "kick", "snare", "snare", "hihat"]

/-- Loop body of _generate_simple_pattern: remaining iteration count, current beat
index i, current random-stream index k.  Each iteration draws one variation sample,
plus one choice sample if it substitutes. -/
def simpleAux (bi variation : ℚ) (rng : ℕ → ℚ) :
    ℕ → ℕ → ℕ → List (ℚ × String)
  | 0, _, _ => []
  | remaining + 1, i, k =>
    let timestamp : ℚ := (i : ℚ) * bi
    if rng k < variation then
      (timestamp, pyChoice ["kick", "snare", "hihat"] (rng (k + 1))) ::
        simpleAux bi variation rng remaining (i + 1) (k + 2)
    else
      (timestamp, SIMPLE_PATTERN.getD (i % 4) "kick") ::
        simpleAux bi variation rng remaining (i + 1) (k + 1)

/-- BeatmapGenerator._generate_simple_pattern (config/beatmap.py lines 52-71). -/
def generate_simple_pattern (duration bpm variation : ℚ) (rng : ℕ → ℚ) :
    List (ℚ × String) :=
  simpleAux (beat_interval bpm) variation rng (total_beats duration bpm).toNat 0 0

/-- The per-family substitution of _generate_smart_pattern: kick may become hihat,
snare may become kick, hihat may become kick or snare. -/
def smartSubstitute (instrument : String) (r : ℚ) : String :=
  if instrument = "kick" then pyChoice ["kick", "hihat"] r
  else if instrument = "snare" then pyChoice ["snare", "kick"] r
  else pyChoice ["hihat", "kick", "snare"] r

/-- While-loop body of _generate_smart_pattern, fuelled: the guard
timestamp < duration is tested before every emission, exactly as in the source. -/
def smartAux (duration half_beat variation : ℚ) (rng : ℕ → ℚ) :
    ℕ → ℚ → ℕ → ℕ → List (ℚ × String)
  | 0, _, _, _ => []
  | fuel + 1, timestamp, beat_count, k =>
    if timestamp < duration then
      let base := SMART_PATTERN.getD (beat_count % 8) "kick"
      if rng k < variation then
        (timestamp, smartSubstitute base (rng (k + 1))) ::
          smartAux duration half_beat variation rng fuel (timestamp + half_beat)
            (beat_count + 1) (k + 2)
      else
        (timestamp, base) ::
          smartAux duration half_beat variation rng fuel (timestamp + half_beat)
            (beat_count + 1) (k + 1)
    else []

/-- While-loop body of _generate_complex_pattern, fuelled: after the variation
substitution, a 15% draw may insert an extra fast-succession note. -/
def complexAux (duration half_beat variation : ℚ) (rng : ℕ → ℚ) :
    ℕ → ℚ → ℕ → ℕ → List (ℚ × String)
  | 0, _, _, _ => []
  | fuel + 1, timestamp, beat_count, k =>
    if timestamp < duration then
      let base := COMPLEX_PATTERN.getD (beat_count % 16) "kick"
      let step1 : String × ℕ :=
        if rng k < variation
        then (pyChoice ["kick", "snare", "hihat"] (rng (k + 1)), k + 2)
        else (base, k + 1)
      if rng step1.2 < 3/20 then
        (timestamp, step1.1) ::
          (timestamp + half_beat/2, pyChoice ["kick", "snare", "hihat"] (rng (step1.2 + 1))) ::
            complexAux duration half_beat variation rng fuel
              (timestamp + half_beat/2 + half_beat) (beat_count + 1) (step1.2 + 2)
      else
        (timestamp, step1.1) ::
          complexAux duration half_beat variation rng fuel (timestamp + half_beat)
            (beat_count + 1) (step1.2 + 1)
    else []

/-- Fuel bound for the while-loops: the outer timestamp advances by at least
half_beat = 30/bpm per iteration, so ⌊duration*bpm/30⌋ + 1 iterations suffice. -/
def while_fuel (duration bpm : ℚ) : ℕ := (pyInt (duration * bpm / 30)).toNat + 1

/-- BeatmapGenerator._generate_smart_pattern (config/beatmap.py lines 73-126). -/
def generate_smart_pattern (duration bpm variation : ℚ) (rng : ℕ → ℚ) :
    List (ℚ × String) :=
  smartAux duration (beat_interval bpm / 2) variation rng (while_fuel duration bpm) 0 0 0

/-- BeatmapGenerator._generate_complex_pattern (config/beatmap.py lines 128-168). -/
def generate_complex_pattern (duration bpm variation : ℚ) (rng : ℕ → ℚ) :
    List (ℚ × String) :=
  complexAux duration (beat_interval bpm / 2) variation rng (while_fuel duration bpm) 0 0 0

/-- BeatmapGenerator.generate: dispatch on the pattern family, defaulting to smart. -/
def BeatmapGenerator.generate (duration bpm : ℚ) (pattern_type : String)
    (variation : ℚ) (rng : ℕ → ℚ) : List (ℚ × String) :=
  if pattern_type = "simple" then generate_simple_pattern duration bpm variation rng
  else if pattern_type = "smart" then generate_smart_pattern duration bpm variation rng
  else if pattern_type = "complex" then generate_complex_pattern duration bpm variation rng
  else generate_smart_pattern duration bpm variation rng

/-- The random stream that is constantly zero (a concrete valid stream). -/
def rng0 : ℕ → ℚ := fun _ => 0

/-! ## src/hand_tracker.py — velocities -/

/-- A tracked zone's center (hand_tracker.py builds integer centers). -/
structure ZonePos where
  center_x : ℤ
  center_y : ℤ
deriving DecidableEq

/-- Euclidean pixel distance between a zone's current and previous centers. -/
noncomputable def euclid_velocity (curr prev : ZonePos) : ℝ :=
  Real.sqrt (((curr.center_x - prev.center_x : ℤ) : ℝ) ^ 2 +
    ((curr.center_y - prev.center_y : ℤ) : ℝ) ^ 2)

/-- HandTracker.calculate_velocity (src/hand_tracker.py lines 215-243): every label
of the current frame gets a velocity; labels absent from the previous frame get 0. -/
noncomputable def calculate_velocity
    (current_positions previous_positions : List (String × ZonePos)) :
    List (String × ℝ) :=
  current_positions.map fun e =>
    (e.1,
     match dictGet previous_positions e.1 with
     | some prev => euclid_velocity e.2 prev
     | none => 0)

/-- HandTracker.calculate_chin_velocity (src/hand_tracker.py lines 245-263). -/
noncomputable def calculate_chin_velocity (current_position : ZonePos)
    (previous_position : Option ZonePos) : ℝ :=
  match previous_position with
  | none => 0
  | some prev => euclid_velocity current_position prev

/-! ## Theorems -/

/-- The combo multiplier table read as a nested conditional: the highest satisfied
threshold wins. -/
theorem get_combo_multiplier_eq (c : ℕ) :
    get_combo_multiplier c =
      (if 50 ≤ c then (5/2 : ℚ) else if 30 ≤ c then 2 else if 20 ≤ c then 3/2
       else if 10 ≤ c then 6/5 else 1) := by
  rfl

/-- The combo multiplier is always at least 1, hence nonnegative. -/
theorem get_combo_multiplier_pos (c : ℕ) : (1 : ℚ) ≤ get_combo_multiplier c := by
  rw [get_combo_multiplier_eq]
  split_ifs <;> norm_num

/-- C1 counterexample: at combo 19, an awarded OK hit (25 base points) raises the
combo to 20, so the multiplier becomes 1.5; the code adds int(25 * 1.5) = 37 to the
score, whereas round(25 * 1.5) = 38 as the claim states. -/
theorem add_hit_round_counterexample :
    (ScoreManager.add_hit
        ⟨0, 19, 19, 19, 19, 0, 0, 0, 6/5⟩ ⟨true, "OK", 25, "kick"⟩).score -
      (0 : ℤ) = 37 ∧
    round ((25 : ℚ) *
        (ScoreManager.add_hit
          ⟨0, 19, 19, 19, 19, 0, 0, 0, 6/5⟩ ⟨true, "OK", 25, "kick"⟩).current_multiplier) =
      38 ∧
    (ScoreManager.add_hit
        ⟨0, 19, 19, 19, 19, 0, 0, 0, 6/5⟩ ⟨true, "OK", 25, "kick"⟩).score - (0 : ℤ) ≠
      round ((25 : ℚ) *
        (ScoreManager.add_hit
          ⟨0, 19, 19, 19, 19, 0, 0, 0, 6/5⟩ ⟨true, "OK", 25, "kick"⟩).current_multiplier) := by
  refine ⟨?_, ?_, ?_⟩ <;>
    norm_num [ScoreManager.add_hit, get_combo_multiplier_eq, pyInt, round_eq]

/-- C1 (amended): every awarded hit increments the combo, updates the max-combo
high-water mark, increments the counter of the hit's rating, recomputes the
multiplier from the new combo as the highest satisfied threshold of
{50: 2.5, 30: 2.0, 20: 1.5, 10: 1.2, else 1.0}, and adds int(basePoints * multiplier)
— truncation toward zero, not rounding — to the score. -/
theorem add_hit_spec (s : ScoreManager) (hr : HitResult) (hs : hr.success = true) :
    (s.add_hit hr).combo = s.combo + 1 ∧
    (s.add_hit hr).max_combo = max s.max_combo (s.combo + 1) ∧
    (s.add_hit hr).total_hits = s.total_hits + 1 ∧
    (s.add_hit hr).miss_count = s.miss_count ∧
    (hr.rating = "PERFECT" →
      (s.add_hit hr).perfect_count = s.perfect_count + 1 ∧
      (s.add_hit hr).good_count = s.good_count ∧
      (s.add_hit hr).ok_count = s.ok_count) ∧
    (hr.rating = "GOOD" →
      (s.add_hit hr).perfect_count = s.perfect_count ∧
      (s.add_hit hr).good_count = s.good_count + 1 ∧
      (s.add_hit hr).ok_count = s.ok_count) ∧
    (hr.rating = "OK" →
      (s.add_hit hr).perfect_count = s.perfect_count ∧
      (s.add_hit hr).good_count = s.good_count ∧
      (s.add_hit hr).ok_count = s.ok_count + 1) ∧
    (s.add_hit hr).current_multiplier =
      (if 50 ≤ s.combo + 1 then (5/2 : ℚ) else if 30 ≤ s.combo + 1 then 2
       else if 20 ≤ s.combo + 1 then 3/2 else if 10 ≤ s.combo + 1 then 6/5 else 1) ∧
    (s.add_hit hr).score =
      s.score + pyInt ((hr.points : ℚ) * (s.add_hit hr).current_multiplier) := by
  refine ⟨?_, ?_, ?_, ?_, ?_, ?_, ?_, ?_, ?_⟩
  · simp [ScoreManager.add_hit, hs]
  · simp [ScoreManager.add_hit, hs]
  · simp [ScoreManager.add_hit, hs]
  · simp [ScoreManager.add_hit, hs]
  · intro h
    simp [ScoreManager.add_hit, hs, h]
  · intro h
    simp [ScoreManager.add_hit, hs, h]
  · intro h
    simp [ScoreManager.add_hit, hs, h]
  · simp [ScoreManager.add_hit, hs, get_combo_multiplier_eq]
  · simp [ScoreManager.add_hit, hs]

/-- C1 witness: an awarded PERFECT hit on a fresh manager yields combo 1,
multiplier 1.0 and 100 points. -/
theorem add_hit_spec_witness :
    (ScoreManager.init.add_hit ⟨true, "PERFECT", 100, "kick"⟩).combo = 0 + 1 ∧
    (ScoreManager.init.add_hit ⟨true, "PERFECT", 100, "kick"⟩).score =
      0 + pyInt ((100 : ℚ) *
        (ScoreManager.init.add_hit ⟨true, "PERFECT", 100, "kick"⟩).current_multiplier) := by
  have h := add_hit_spec ScoreManager.init ⟨true, "PERFECT", 100, "kick"⟩ rfl
  exact ⟨h.1, h.2.2.2.2.2.2.2.2⟩

/-- C3: add_miss zeroes the combo, resets the multiplier to 1.0 and increments the
miss counter; score, max-combo and every per-rating hit counter are unchanged. -/
theorem add_miss_spec (s : ScoreManager) :
    s.add_miss.combo = 0 ∧
    s.add_miss.current_multiplier = 1 ∧
    s.add_miss.miss_count = s.miss_count + 1 ∧
    s.add_miss.score = s.score ∧
    s.add_miss.max_combo = s.max_combo ∧
    s.add_miss.total_hits = s.total_hits ∧
    s.add_miss.perfect_count = s.perfect_count ∧
    s.add_miss.good_count = s.good_count ∧
    s.add_miss.ok_count = s.ok_count := by
  simp [ScoreManager.add_miss]

/-- C4: with at least one judged note, accuracy is the quality-weighted hit count
over all judged notes times 100, clamped at 100, and the rank is S/A/B/C/D by the
95/85/70/50 thresholds; the worked example (8 PERFECT, 1 GOOD, 1 OK, 0 misses)
scores accuracy 91 and rank A. -/
theorem accuracy_rank_spec (s : ScoreManager) (h : s.total_hits + s.miss_count ≠ 0) :
    s.get_accuracy =
      min 100 (((s.perfect_count : ℚ) * 1 + (s.good_count : ℚ) * (7/10) +
        (s.ok_count : ℚ) * (2/5)) / ((s.total_hits + s.miss_count : ℕ) : ℚ) * 100) ∧
    s.get_rank =
      (if 95 ≤ s.get_accuracy then "S" else if 85 ≤ s.get_accuracy then "A"
       else if 70 ≤ s.get_accuracy then "B" else if 50 ≤ s.get_accuracy then "C"
       else "D") ∧
    sample_state.get_accuracy = 91 ∧ sample_state.get_rank = "A" := by
  have hcounts : sample_state.perfect_count = 8 ∧ sample_state.good_count = 1 ∧
      sample_state.ok_count = 1 ∧ sample_state.total_hits = 10 ∧
      sample_state.miss_count = 0 := by
    simp [sample_state, sample_hits, List.replicate, ScoreManager.add_hit,
      ScoreManager.init]
  obtain ⟨h1, h2, h3, h4, h5⟩ := hcounts
  have hacc : sample_state.get_accuracy = 91 := by
    rw [ScoreManager.get_accuracy]
    simp only [h1, h2, h3, h4, h5]
    norm_num [min_def]
  have hrank : sample_state.get_rank = "A" := by
    rw [ScoreManager.get_rank, hacc]
    norm_num
  refine ⟨?_, rfl, hacc, hrank⟩
  simp [ScoreManager.get_accuracy, h]

/-- C4 witness: the sample state (8 PERFECT, 1 GOOD, 1 OK) instantiates the theorem;
its accuracy is 91 and its rank is A. -/
theorem accuracy_rank_spec_witness :
    sample_state.get_accuracy = 91 ∧ sample_state.get_rank = "A" := by
  have h := accuracy_rank_spec sample_state (by simp [sample_state, sample_hits,
    List.replicate, ScoreManager.init, ScoreManager.add_hit])
  exact ⟨h.2.2.1, h.2.2.2⟩

/-- C10: with zero judged notes, get_accuracy returns 0 (no division occurs) and
get_rank consequently returns D. -/
theorem accuracy_zero_notes (s : ScoreManager) (h : s.total_hits + s.miss_count = 0) :
    s.get_accuracy = 0 ∧ s.get_rank = "D" := by
  have ha : s.get_accuracy = 0 := by simp [ScoreManager.get_accuracy, h]
  refine ⟨ha, ?_⟩
  rw [ScoreManager.get_rank, ha]
  norm_num

/-- C10 witness: a freshly initialized manager has accuracy 0 and rank D. -/
theorem accuracy_zero_notes_witness :
    ScoreManager.init.get_accuracy = 0 ∧ ScoreManager.init.get_rank = "D" :=
  accuracy_zero_notes ScoreManager.init rfl

/-- A distance within the perfect window is rated PERFECT. -/
theorem calculate_rating_perfect (det : CollisionDetector) (d : ℚ)
    (h : d ≤ det.perfect_window) : det.calculate_rating d = "PERFECT" := by
  simp [CollisionDetector.calculate_rating, h]

/-- A distance above the perfect window but within the good window is rated GOOD. -/
theorem calculate_rating_good (det : CollisionDetector) (d : ℚ)
    (h1 : det.perfect_window < d) (h2 : d ≤ det.good_window) :
    det.calculate_rating d = "GOOD" := by
  simp [CollisionDetector.calculate_rating, not_le.mpr h1, h2]

/-- With ascending windows, a distance above the good window but within the ok
window is rated OK. -/
theorem calculate_rating_ok (det : CollisionDetector) (d : ℚ)
    (hpg : det.perfect_window ≤ det.good_window)
    (h1 : det.good_window < d) (h2 : d ≤ det.ok_window) :
    det.calculate_rating d = "OK" := by
  simp [CollisionDetector.calculate_rating, not_le.mpr h1,
    not_le.mpr (lt_of_le_of_lt hpg h1), h2]

/-- With ascending windows, a distance beyond the ok window is rated MISS. -/
theorem calculate_rating_miss (det : CollisionDetector) (d : ℚ)
    (hpg : det.perfect_window ≤ det.good_window)
    (hgo : det.good_window ≤ det.ok_window)
    (h : det.ok_window < d) : det.calculate_rating d = "MISS" := by
  simp [CollisionDetector.calculate_rating, not_le.mpr h,
    not_le.mpr (lt_of_le_of_lt hgo h),
    not_le.mpr (lt_of_le_of_lt (hpg.trans hgo) h)]

/-- check_hit on a live note with the lane active, written by cases on the rating. -/
theorem check_hit_open (det : CollisionDetector) (o : FallingObject)
    (hh : o.is_hit = false) (hm : o.is_missed = false) :
    det.check_hit o true =
      (if det.calculate_rating |o.get_distance_from_target| = "MISS" then (none, o)
       else
        (some ⟨true, det.calculate_rating |o.get_distance_from_target|,
           score_values (det.calculate_rating |o.get_distance_from_target|),
           o.instrument⟩,
         o.mark_hit)) := by
  simp [CollisionDetector.check_hit, hh, hm]

/-- C2: with the lane active and the note neither hit nor missed, check_hit
classifies the absolute distance from target by the ascending windows into
PERFECT (100 points), GOOD (50), OK (25) — marking the note hit — and returns
nothing, leaving the note untouched, beyond the ok window; distance 0 yields
PERFECT under every difficulty's windows. -/
theorem check_hit_spec (det : CollisionDetector) (o : FallingObject)
    (hpg : det.perfect_window ≤ det.good_window)
    (hgo : det.good_window ≤ det.ok_window)
    (hh : o.is_hit = false) (hm : o.is_missed = false) :
    (|o.get_distance_from_target| ≤ det.perfect_window →
      det.check_hit o true = (some ⟨true, "PERFECT", 100, o.instrument⟩, o.mark_hit)) ∧
    (det.perfect_window < |o.get_distance_from_target| →
      |o.get_distance_from_target| ≤ det.good_window →
      det.check_hit o true = (some ⟨true, "GOOD", 50, o.instrument⟩, o.mark_hit)) ∧
    (det.good_window < |o.get_distance_from_target| →
      |o.get_distance_from_target| ≤ det.ok_window →
      det.check_hit o true = (some ⟨true, "OK", 25, o.instrument⟩, o.mark_hit)) ∧
    (det.ok_window < |o.get_distance_from_target| →
      det.check_hit o true = (none, o)) ∧
    o.mark_hit.is_hit = true ∧
    (∀ d ∈ DIFFICULTIES, o.get_distance_from_target = 0 →
      d.detector.check_hit o true =
        (some ⟨true, "PERFECT", 100, o.instrument⟩, o.mark_hit)) := by
  refine ⟨?_, ?_, ?_, ?_, rfl, ?_⟩
  · intro h1
    rw [check_hit_open det o hh hm, calculate_rating_perfect det _ h1]
    simp [score_values]
  · intro h1 h2
    rw [check_hit_open det o hh hm, calculate_rating_good det _ h1 h2]
    simp [score_values]
  · intro h1 h2
    rw [check_hit_open det o hh hm, calculate_rating_ok det _ hpg h1 h2]
    simp [score_values]
  · intro h1
    rw [check_hit_open det o hh hm, calculate_rating_miss det _ hpg hgo h1]
    simp
  · intro d hd h0
    have habs : |o.get_distance_from_target| = 0 := by rw [h0]; simp
    simp only [DIFFICULTIES, List.mem_cons, List.not_mem_nil, or_false] at hd
    rcases hd with rfl | rfl | rfl <;>
      · rw [check_hit_open _ o hh hm, calculate_rating_perfect _ _ (by
          rw [habs]; norm_num [EASY, MEDIUM, HARD, Difficulty.detector])]
        simp [score_values]

/-- C2 witness: a kick note exactly on the target line, judged with the lane
active under the EASY windows, is marked hit with a PERFECT worth 100 points. -/
theorem check_hit_spec_witness :
    EASY.detector.check_hit sample_note true =
      (some ⟨true, "PERFECT", 100, "kick"⟩, sample_note.mark_hit) := by
  have h := (check_hit_spec EASY.detector sample_note (by norm_num [EASY,
    Difficulty.detector]) (by norm_num [EASY, Difficulty.detector]) rfl rfl).1 (by
    norm_num [sample_note, FallingObject.get_distance_from_target, FallingObject.mk_new,
      EASY, Difficulty.detector])
  simpa [sample_note, FallingObject.mk_new] using h

/-- check_hit never judges a note that is already hit or missed: it returns no
result and leaves the note unchanged. -/
theorem check_hit_terminal (o : FallingObject) (det : CollisionDetector)
    (hand_in_lane : Bool) (hcase : o.is_hit = true ∨ o.is_missed = true) :
    det.check_hit o hand_in_lane = (none, o) := by
  cases hand_in_lane
  · simp [CollisionDetector.check_hit]
  · simp [CollisionDetector.check_hit, hcase]

/-- One update tick preserves the lifecycle invariant: hit and missed stay mutually
exclusive and dead stays implied by hit-or-missed. -/
theorem update_preserves_inv (o : FallingObject) (dt current_time : ℚ)
    (h1 : ¬(o.is_hit = true ∧ o.is_missed = true))
    (h2 : o.is_dead = true → o.is_hit = true ∨ o.is_missed = true) :
    (¬((o.update dt current_time).is_hit = true ∧
        (o.update dt current_time).is_missed = true)) ∧
    ((o.update dt current_time).is_dead = true →
      (o.update dt current_time).is_hit = true ∨
        (o.update dt current_time).is_missed = true) := by
  simp only [FallingObject.update]
  split_ifs <;> simp_all

/-- C8: in every note state reachable through creation, update ticks and collision
judging, the hit and missed flags are never both set, the dead flag implies hit or
missed, and a note already hit or missed is never judged again (check_hit returns
no result and leaves it unchanged), so the terminal transition happens at most once. -/
theorem note_lifecycle_invariant (o : FallingObject) (h : NoteReachable o) :
    (¬(o.is_hit = true ∧ o.is_missed = true)) ∧
    (o.is_dead = true → o.is_hit = true ∨ o.is_missed = true) ∧
    (∀ (det : CollisionDetector) (hand_in_lane : Bool),
      o.is_hit = true ∨ o.is_missed = true →
      det.check_hit o hand_in_lane = (none, o)) := by
  have main : (¬(o.is_hit = true ∧ o.is_missed = true)) ∧
      (o.is_dead = true → o.is_hit = true ∨ o.is_missed = true) := by
    induction h with
    | init instrument spawn_time falling_speed => simp [FallingObject.mk_new]
    | step_update o' dt current_time _ ih =>
      exact update_preserves_inv o' dt current_time ih.1 ih.2
    | step_judge o' det hand_in_lane _ ih =>
      by_cases hcase : o'.is_hit = true ∨ o'.is_missed = true
      · rw [check_hit_terminal o' det hand_in_lane hcase]
        exact ih
      · push_neg at hcase
        have hh : o'.is_hit = false := by
          cases hh' : o'.is_hit
          · rfl
          · exact absurd hh' hcase.1
        have hm : o'.is_missed = false := by
          cases hm' : o'.is_missed
          · rfl
          · exact absurd hm' hcase.2
        cases hand_in_lane with
        | false => simpa [CollisionDetector.check_hit] using ih
        | true =>
          rw [check_hit_open det o' hh hm]
          split_ifs
          · exact ih
          · have hdead : o'.is_dead = false := by
              cases hd' : o'.is_dead
              · rfl
              · rcases ih.2 hd' with hc | hc
                · exact absurd hc hcase.1
                · exact absurd hc hcase.2
            simp [FallingObject.mark_hit, hm, hdead]
  exact ⟨main.1, main.2, fun det lane => check_hit_terminal o det lane⟩

/-- C8 witness: the theorem instantiated at the freshly created kick note, which is
reachable by construction. -/
theorem note_lifecycle_invariant_witness :
    ¬((FallingObject.mk_new "kick" 0 (7/2)).is_hit = true ∧
        (FallingObject.mk_new "kick" 0 (7/2)).is_missed = true) :=
  (note_lifecycle_invariant (FallingObject.mk_new "kick" 0 (7/2))
    (NoteReachable.init "kick" 0 (7/2))).1

/-- Unfolding one loop iteration of loop_beatmap. -/
theorem loop_beatmap_succ (bm : List (ℚ × String)) (n : ℕ) (d : ℚ) :
    loop_beatmap bm (n + 1) d =
      loop_beatmap bm n d ++ bm.map (fun note => (note.1 + (n : ℚ) * d, note.2)) := by
  simp [loop_beatmap, List.range_succ]

/-- loop_beatmap emits exactly num_loops copies of the base beatmap. -/
theorem loop_beatmap_length (bm : List (ℚ × String)) (n : ℕ) (d : ℚ) :
    (loop_beatmap bm n d).length = n * bm.length := by
  induction n with
  | zero => simp [loop_beatmap]
  | succ m ih =>
    rw [loop_beatmap_succ]
    simp [ih]
    ring

/-- The entry of loop i at base position j is the base note shifted by i * d. -/
theorem loop_beatmap_get (bm : List (ℚ × String)) (d : ℚ) :
    ∀ (n i j : ℕ), i < n → ∀ (hj : j < bm.length),
      (loop_beatmap bm n d)[i * bm.length + j]? =
        some ((bm.get ⟨j, hj⟩).1 + (i : ℚ) * d, (bm.get ⟨j, hj⟩).2) := by
  intro n
  induction n with
  | zero => exact fun i j hi _ => absurd hi (Nat.not_lt_zero i)
  | succ m ih =>
    intro i j hi hj
    rw [loop_beatmap_succ, List.getElem?_append]
    by_cases h : i < m
    · have hlt : i * bm.length + j < (loop_beatmap bm m d).length := by
        rw [loop_beatmap_length]
        calc i * bm.length + j < i * bm.length + bm.length := by omega
          _ = (i + 1) * bm.length := by ring
          _ ≤ m * bm.length := Nat.mul_le_mul_right _ (Nat.succ_le_of_lt h)
      rw [if_pos hlt]
      exact ih i j h hj
    · have hieq : i = m := by omega
      subst hieq
      have hnlt : ¬(i * bm.length + j < (loop_beatmap bm i d).length) := by
        rw [loop_beatmap_length]
        omega
      rw [if_neg hnlt, loop_beatmap_length]
      have hidx : i * bm.length + j - i * bm.length = j := by omega
      rw [hidx, List.getElem?_map, List.getElem?_eq_getElem hj]
      simp [List.get_eq_getElem]

/-- C6: loop_beatmap over k base notes and N loops of duration d yields exactly
N * k entries, and the entry of loop i at base position j is the base note with its
timestamp shifted by exactly i * d and its instrument unchanged. -/
theorem loop_beatmap_spec (bm : List (ℚ × String)) (n : ℕ) (d : ℚ) :
    (loop_beatmap bm n d).length = n * bm.length ∧
    (∀ (i j : ℕ), i < n → ∀ (hj : j < bm.length),
      (loop_beatmap bm n d)[i * bm.length + j]? =
        some ((bm.get ⟨j, hj⟩).1 + (i : ℚ) * d, (bm.get ⟨j, hj⟩).2)) :=
  ⟨loop_beatmap_length bm n d, fun i j hi hj => loop_beatmap_get bm d n i j hi hj⟩

/-- C6 witness: looping a two-note beatmap three times with a 9 second loop gives six
entries, and the copy of the second note inside loop 1 is shifted by exactly 9. -/
theorem loop_beatmap_spec_witness :
    (loop_beatmap [((0 : ℚ), "kick"), (1/2, "snare")] 3 9).length = 3 * 2 ∧
    (loop_beatmap [((0 : ℚ), "kick"), (1/2, "snare")] 3 9)[1 * 2 + 1]? =
      some ((1/2 : ℚ) + (1 : ℚ) * 9, "snare") :=
  ⟨(loop_beatmap_spec [((0 : ℚ), "kick"), (1/2, "snare")] 3 9).1,
   (loop_beatmap_spec [((0 : ℚ), "kick"), (1/2, "snare")] 3 9).2 1 1 (by omega)
     (by decide)⟩

/-- Soundness of the fingertip scan: a returned label comes with an overlapping zone
of that label whose recorded velocity meets the threshold. -/
theorem findFingertipHit_sound (l : Lane) :
    ∀ (fps : List (String × Rect)) (fvels : List (String × ℚ)) (thr : ℚ) (lbl : String),
      findFingertipHit l fps fvels thr = some lbl →
      ∃ zone v, (lbl, zone) ∈ fps ∧ l.check_hand_collision zone = true ∧
        dictGet fvels lbl = some v ∧ thr ≤ v := by
  intro fps
  induction fps with
  | nil =>
    intro fvels thr lbl h
    simp [findFingertipHit] at h
  | cons hd rest ih =>
    intro fvels thr lbl h
    obtain ⟨hand_label, zone⟩ := hd
    simp only [findFingertipHit] at h
    by_cases hc : l.check_hand_collision zone = true
    · rw [if_pos hc] at h
      split at h
      · rename_i v hdg
        by_cases hv : thr ≤ v
        · rw [if_pos hv] at h
          injection h with h
          subst h
          exact ⟨zone, v, List.mem_cons_self _ _, hc, hdg, hv⟩
        · rw [if_neg hv] at h
          obtain ⟨z, v', hmem, hcol, hget, hle⟩ := ih fvels thr lbl h
          exact ⟨z, v', List.mem_cons_of_mem _ hmem, hcol, hget, hle⟩
      · obtain ⟨z, v, hmem, hcol, hget, hle⟩ := ih fvels thr lbl h
        exact ⟨z, v, List.mem_cons_of_mem _ hmem, hcol, hget, hle⟩
    · rw [if_neg hc] at h
      obtain ⟨z, v, hmem, hcol, hget, hle⟩ := ih fvels thr lbl h
      exact ⟨z, v, List.mem_cons_of_mem _ hmem, hcol, hget, hle⟩

/-- Soundness of one lane's activation: a recorded label witnesses the overlap plus
velocity condition of the lane's control scheme. -/
theorem laneActivation_sound (l : Lane) (fps : List (String × Rect))
    (chin : Option Rect) (fvels : List (String × ℚ)) (cvel thr : ℚ) (lbl : String)
    (h : laneActivation l fps chin fvels cvel thr = some lbl) :
    activationEvidence l fps chin fvels cvel thr := by
  by_cases hih : l.instrument = "hihat"
  · cases chin with
    | none => simp [laneActivation, hih] at h
    | some chin_zone =>
      simp only [laneActivation] at h
      rw [if_pos hih] at h
      split_ifs at h with hcond
      exact Or.inl ⟨hih, chin_zone, rfl, hcond.1, hcond.2⟩
  · simp only [laneActivation] at h
    rw [if_neg hih] at h
    obtain ⟨z, v, hmem, hcol, hget, hle⟩ := findFingertipHit_sound l fps fvels thr lbl h
    exact Or.inr ⟨hih, lbl, z, v, hmem, hcol, hget, hle⟩

/-- Activating a lane does not change the activation evidence (the geometry and
instrument are untouched). -/
theorem activate_evidence (l : Lane) (b : Bool) (fps : List (String × Rect))
    (chin : Option Rect) (fvels : List (String × ℚ)) (cvel thr : ℚ) :
    activationEvidence (l.activate b) fps chin fvels cvel thr ↔
      activationEvidence l fps chin fvels cvel thr := Iff.rfl

/-- A lane never activates on a zone of velocity 0 against the real threshold 15. -/
theorem laneActivation_zero_velocity (l : Lane) (z : Rect) :
    laneActivation l [("Left", z)] (some z) [("Left", (0 : ℚ))] 0 velocity_threshold
      = none := by
  have h15 : ¬((velocity_threshold : ℚ) ≤ 0) := by norm_num [velocity_threshold]
  simp only [laneActivation]
  by_cases hih : l.instrument = "hihat"
  · rw [if_pos hih]
    simp [h15]
  · rw [if_neg hih]
    simp only [findFingertipHit, dictGet]
    split_ifs <;> simp_all

/-- C5: in every frame processed by check_collisions_with_velocity, a lane is marked
active, or reported in the active-lanes map, only if some tracked zone of its
control scheme (chin for the hi-hat lane, a fingertip for the others) overlaps the
lane rectangle with velocity at or above the threshold; in particular a zone of
velocity 0 fully inside the lane rectangle, against the real threshold 15, never
activates the lane. -/
theorem check_collisions_with_velocity_spec (lanes : List Lane)
    (fps : List (String × Rect)) (chin : Option Rect) (fvels : List (String × ℚ))
    (cvel thr : ℚ) :
    (∀ l' ∈ (check_collisions_with_velocity lanes fps chin fvels cvel thr).2,
      l'.is_active = true → activationEvidence l' fps chin fvels cvel thr) ∧
    (∀ instr lbl,
      (instr, lbl) ∈ (check_collisions_with_velocity lanes fps chin fvels cvel thr).1 →
      ∃ l ∈ lanes, l.instrument = instr ∧ activationEvidence l fps chin fvels cvel thr) ∧
    (∀ (l : Lane) (z : Rect), rectInside z l.get_rect = true →
      (check_collisions_with_velocity [l] [("Left", z)] (some z) [("Left", (0 : ℚ))]
          0 velocity_threshold).1 = [] ∧
      ∀ l' ∈ (check_collisions_with_velocity [l] [("Left", z)] (some z)
          [("Left", (0 : ℚ))] 0 velocity_threshold).2, l'.is_active = false) := by
  refine ⟨?_, ?_, ?_⟩
  · induction lanes with
    | nil => simp [check_collisions_with_velocity]
    | cons l rest ih =>
      intro l' hl' hact
      simp only [check_collisions_with_velocity] at hl'
      rcases List.mem_cons.mp hl' with heq | hmem
      · subst heq
        cases hentry : laneActivation l fps chin fvels cvel thr with
        | none =>
          rw [hentry] at hact
          simp [Lane.activate] at hact
        | some lbl =>
          exact (activate_evidence l _ fps chin fvels cvel thr).mpr
            (laneActivation_sound l fps chin fvels cvel thr lbl hentry)
      · exact ih l' hmem hact
  · induction lanes with
    | nil => simp [check_collisions_with_velocity]
    | cons l rest ih =>
      intro instr lbl hmem
      simp only [check_collisions_with_velocity] at hmem
      cases hentry : laneActivation l fps chin fvels cvel thr with
      | none =>
        rw [hentry] at hmem
        obtain ⟨l0, hl0, hinstr, hev⟩ := ih instr lbl hmem
        exact ⟨l0, List.mem_cons_of_mem _ hl0, hinstr, hev⟩
      | some lbl0 =>
        rw [hentry] at hmem
        rcases List.mem_cons.mp hmem with heq | hmem'
        · have hpair := Prod.ext_iff.mp heq
          exact ⟨l, List.mem_cons_self _ _, hpair.1.symm,
            laneActivation_sound l fps chin fvels cvel thr lbl0 hentry⟩
        · obtain ⟨l0, hl0, hinstr, hev⟩ := ih instr lbl hmem'
          exact ⟨l0, List.mem_cons_of_mem _ hl0, hinstr, hev⟩
  · intro l z _
    have hz := laneActivation_zero_velocity l z
    constructor
    · simp [check_collisions_with_velocity, hz]
    · intro l' hl'
      simp only [check_collisions_with_velocity, hz] at hl'
      rcases List.mem_cons.mp hl' with heq | hmem
      · subst heq
        simp [Lane.activate]
      · simp at hmem

/-- C5 witness: a 40x40 zone resting fully inside the kick lane with velocity 0,
checked against the real threshold 15, activates nothing. -/
theorem check_collisions_with_velocity_spec_witness :
    (check_collisions_with_velocity [KICK_LANE] [("Left", ⟨1050, 420, 40, 40⟩)]
        (some ⟨1050, 420, 40, 40⟩) [("Left", (0 : ℚ))] 0 velocity_threshold).1 = [] :=
  ((check_collisions_with_velocity_spec [KICK_LANE] [("Left", ⟨1050, 420, 40, 40⟩)]
      (some ⟨1050, 420, 40, 40⟩) [("Left", (0 : ℚ))] 0 velocity_threshold).2.2 KICK_LANE
    ⟨1050, 420, 40, 40⟩ (by decide)).1

/-- Velocities computed for a frame carry exactly the labels of the current frame. -/
theorem calculate_velocity_keys (cur prev : List (String × ZonePos)) :
    (calculate_velocity cur prev).map Prod.fst = cur.map Prod.fst := by
  simp [calculate_velocity]

/-- C9: calculate_velocity is total on the current frame's labels: a label absent
from the previous frame gets velocity 0.0, a label present gets the Euclidean pixel
distance between its current and previous centers; calculate_chin_velocity returns
0.0 when there is no previous chin position. -/
theorem calculate_velocity_spec (cur prev : List (String × ZonePos)) :
    ((calculate_velocity cur prev).map Prod.fst = cur.map Prod.fst) ∧
    (∀ (lbl : String) (p : ZonePos), dictGet cur lbl = some p →
      dictGet (calculate_velocity cur prev) lbl =
        some (match dictGet prev lbl with
              | some pp => euclid_velocity p pp
              | none => 0)) ∧
    (∀ c : ZonePos, calculate_chin_velocity c none = 0) := by
  refine ⟨calculate_velocity_keys cur prev, ?_, fun c => rfl⟩
  intro lbl p hcur
  induction cur with
  | nil => simp [dictGet] at hcur
  | cons hd rest ih =>
    obtain ⟨k, pos⟩ := hd
    simp only [dictGet] at hcur
    by_cases hk : k = lbl
    · rw [if_pos hk] at hcur
      injection hcur with hcur
      subst hcur
      subst hk
      simp [calculate_velocity, dictGet]
    · rw [if_neg hk] at hcur
      have htail := ih hcur
      simpa [calculate_velocity, dictGet, hk] using htail

/-- C9 witness: a single left hand first detected this frame (no previous record)
gets velocity 0, and an absent previous chin position gives chin velocity 0. -/
theorem calculate_velocity_spec_witness :
    dictGet (calculate_velocity [("Left", ⟨3, 4⟩)] []) "Left" = some 0 ∧
    calculate_chin_velocity ⟨3, 4⟩ none = 0 := by
  have h := (calculate_velocity_spec [("Left", ⟨3, 4⟩)] []).2.1 "Left" ⟨3, 4⟩ (by
    simp [dictGet])
  exact ⟨h, (calculate_velocity_spec [("Left", ⟨3, 4⟩)] []).2.2 ⟨3, 4⟩⟩

/-- With variation 0 and a nonnegative random stream, the simple-pattern loop never
substitutes: beat i of the remaining run lands at (i) * beat_interval with
instrument SIMPLE_PATTERN[(i) % 4], independent of the stream and of the stream
index. -/
theorem simpleAux_zero_variation (bi : ℚ) (rng : ℕ → ℚ) (hr : ∀ n, 0 ≤ rng n) :
    ∀ (remaining i k : ℕ),
      simpleAux bi 0 rng remaining i k =
        (List.range remaining).map
          (fun j => (((i + j : ℕ) : ℚ) * bi, SIMPLE_PATTERN.getD ((i + j) % 4) "kick")) := by
  intro remaining
  induction remaining with
  | zero =>
    intro i k
    simp [simpleAux]
  | succ m ih =>
    intro i k
    rw [simpleAux, if_neg (not_lt.mpr (hr k))]
    rw [List.range_succ_eq_map, List.map_cons, List.map_map, ih (i + 1) (k + 1)]
    refine List.cons_eq_cons.mpr ⟨by simp, ?_⟩
    refine List.map_congr_left ?_
    intro j hj
    have hn : i + 1 + j = i + (j + 1) := by omega
    simp [Function.comp, hn]

/-- C7: with variation 0 (and a random stream valued in [0,1), of which only
nonnegativity is used), the simple pattern family generates exactly one note per
beat interval with instrument SIMPLE_PATTERN[step % 4] and zero substitutions — in
particular the output does not depend on the stream at all, so a fixed seed
reproduces it; at duration 9 and bpm 120 this is 18 notes at half-second steps in
the fixed kick/snare/hihat/snare cadence; and duration 0 yields the empty beatmap
for every pattern family and every variation. -/
theorem beatmap_generate_spec (duration bpm : ℚ) (rng : ℕ → ℚ)
    (hbpm : 0 < bpm) (hr : ∀ n, 0 ≤ rng n) :
    (BeatmapGenerator.generate duration bpm "simple" 0 rng =
      (List.range (total_beats duration bpm).toNat).map
        (fun (i : ℕ) =>
          ((i : ℚ) * beat_interval bpm, SIMPLE_PATTERN.getD (i % 4) "kick"))) ∧
    ((BeatmapGenerator.generate 9 120 "simple" 0 rng).length = 18 ∧
      ∀ (i : ℕ), i < 18 →
        (BeatmapGenerator.generate 9 120 "simple" 0 rng)[i]? =
          some ((i : ℚ) / 2, SIMPLE_PATTERN.getD (i % 4) "kick")) ∧
    (∀ (pattern_type : String) (variation : ℚ),
      BeatmapGenerator.generate 0 bpm pattern_type variation rng = []) := by
  have key : ∀ (d b : ℚ), BeatmapGenerator.generate d b "simple" 0 rng =
      (List.range (total_beats d b).toNat).map
        (fun (i : ℕ) =>
          ((i : ℚ) * beat_interval b, SIMPLE_PATTERN.getD (i % 4) "kick")) := by
    intro d b
    rw [BeatmapGenerator.generate, if_pos rfl, generate_simple_pattern,
      simpleAux_zero_variation (beat_interval b) rng hr (total_beats d b).toNat 0 0]
    simp
  have htb : (total_beats 9 120).toNat = 18 := by
    have h18 : total_beats 9 120 = 18 := by
      norm_num [total_beats, beat_interval, pyInt]
    rw [h18]
    rfl
  refine ⟨key duration bpm, ⟨?_, ?_⟩, ?_⟩
  · rw [key 9 120, htb]
    simp
  · intro i hi
    rw [key 9 120, htb, List.getElem?_map, List.getElem?_range hi]
    have hb : beat_interval 120 = 1/2 := by norm_num [beat_interval]
    rw [hb]
    norm_num
    ring
  · intro pattern_type variation
    rw [BeatmapGenerator.generate]
    split_ifs
    · simp [generate_simple_pattern, total_beats, pyInt, simpleAux]
    · simp [generate_smart_pattern, smartAux]
    · simp [generate_complex_pattern, complexAux]
    · simp [generate_smart_pattern, smartAux]

/-- C7 witness: under the all-zero random stream, duration 0 at bpm 120 produces the
empty beatmap for the smart family at variation 0.3. -/
theorem beatmap_generate_spec_witness :
    BeatmapGenerator.generate 0 120 "smart" (3/10) rng0 = [] :=
  (beatmap_generate_spec 9 120 rng0 (by norm_num) (fun n => le_refl 0)).2.2
    "smart" (3/10)
